import Mathlib

/-!
Shallow embedding of the output task controller of the alumet telemetry
pipeline (`src/alumet/src/pipeline/elements/output/control.rs`), together
with theorems checking the natural-language specification against it.

The stateful Rust code is embedded as explicit state passing: a `TaskManager`
value carries the spawned-task set and the controller registry, and every
operation returns the updated state together with its `Except` result.
Concurrency is abstracted away: the `JoinSet` is a list of task records and
`join_next` removes its head; the event trace of `shutdown` records the order
of its externally visible steps.
-/

namespace Alumet

/-- State of a (managed) output task (enum `TaskState` in control.rs). -/
inductive TaskState where
  | Run
  | RunDiscard
  | Pause
  | StopFinish
  | StopNow
deriving DecidableEq, Repr

/-- Numeric code of a `TaskState` (the `IntoPrimitive` impl with `repr(u8)`:
declaration order gives Run = 0, ..., StopNow = 4). -/
def TaskState.toU8 : TaskState → Nat
  | .Run => 0
  | .RunDiscard => 1
  | .Pause => 2
  | .StopFinish => 3
  | .StopNow => 4

/-- Conversion from a numeric code (the `FromPrimitive` impl: `StopNow` is
marked `#[num_enum(default)]`, so every unlisted code decodes to it). -/
def TaskState.fromU8 : Nat → TaskState
  | 0 => .Run
  | 1 => .RunDiscard
  | 2 => .Pause
  | 3 => .StopFinish
  | 4 => .StopNow
  | _ + 5 => .StopNow

/-- Full name of an output element: owning plugin plus output name
(`OutputName` in pipeline/naming). -/
structure OutputName where
  plugin : String
  output : String
deriving DecidableEq, Repr

def OutputName.new (plugin output : String) : OutputName := ⟨plugin, output⟩

/-- Kind of a pipeline element (`ElementKind` in pipeline/naming). -/
inductive ElementKind where
  | source
  | transform
  | output
deriving DecidableEq, Repr

/-- Kinded element name (`ElementName` in pipeline/naming); an `OutputName`
converts into it with kind `output`. -/
structure ElementName where
  kind : ElementKind
  plugin : String
  element : String
deriving DecidableEq, Repr

def OutputName.toElementName (n : OutputName) : ElementName :=
  ⟨.output, n.plugin, n.output⟩

/-- Modelled from the spec: the pattern-matching subsystem
(`pipeline/matching`) is outside `src/`; §6 of the spec says name matching
supports wildcard patterns, so a string pattern is either the wildcard or an
exact string. -/
inductive StringPattern where
  | any
  | exact (s : String)
deriving DecidableEq, Repr

def StringPattern.matchesStr : StringPattern → String → Bool
  | .any, _ => true
  | .exact s, t => s == t

/-- Modelled from the spec: `OutputNamePattern` (pipeline/matching) pairs a
pattern for the plugin name with one for the output name; `wildcard()`
matches every output name. -/
structure OutputNamePattern where
  plugin : StringPattern
  output : StringPattern
deriving DecidableEq, Repr

def OutputNamePattern.wildcard : OutputNamePattern := ⟨.any, .any⟩

def OutputNamePattern.matches (p : OutputNamePattern) (n : OutputName) : Bool :=
  p.plugin.matchesStr n.plugin && p.output.matchesStr n.output

/-- Modelled from the spec: `OutputMatcher` (pipeline/control/matching)
selects zero or more output names by pattern. -/
inductive OutputMatcher where
  | name (pat : OutputNamePattern)
deriving DecidableEq, Repr

def OutputMatcher.matches : OutputMatcher → OutputName → Bool
  | .name p, n => p.matches n

/-- Modelled from the spec: `ElementNamePattern` (pipeline/matching) carries
an optional element-kind filter plus plugin/element name patterns; `matches`
checks the name patterns (control.rs checks the kind filter separately). -/
structure ElementNamePattern where
  kind : Option ElementKind
  plugin : StringPattern
  element : StringPattern
deriving DecidableEq, Repr

def ElementNamePattern.matches (p : ElementNamePattern) (n : OutputName) : Bool :=
  p.plugin.matchesStr n.plugin && p.element.matchesStr n.output

/-- Shared control block of a blocking output (`SharedOutputConfig`): the
current state as an atomically updatable integer. The `change_notifier` is a
fire-and-forget wake-up signal with no retained state, elided here. -/
structure SharedOutputConfig where
  atomic_state : Nat
deriving DecidableEq, Repr

def SharedOutputConfig.new : SharedOutputConfig := ⟨TaskState.Run.toU8⟩

def SharedOutputConfig.set_state (_c : SharedOutputConfig) (state : TaskState) :
    SharedOutputConfig :=
  ⟨state.toU8⟩

/-- Modelled from the spec: `SharedStreamState` (pipeline/util/stream) is
outside `src/`; §4.3 of the spec says the controlled stream exposes a handle
to its internal state so the controller can mutate it; control.rs sets it via
`arc.set(StreamState::from(state as u8))`, so it stores the numeric code. -/
structure SharedStreamState where
  code : Nat
deriving DecidableEq, Repr

def SharedStreamState.set (_s : SharedStreamState) (code : Nat) : SharedStreamState :=
  ⟨code⟩

/-- Per-stage controller handle (`SingleOutputController`): blocking-backed
or async-backed. -/
inductive SingleOutputController where
  | blocking (shared : SharedOutputConfig)
  | async (shared : SharedStreamState)
deriving DecidableEq, Repr

def SingleOutputController.set_state :
    SingleOutputController → TaskState → SingleOutputController
  | .blocking shared, state => .blocking (shared.set_state state)
  | .async arc, state => .async (arc.set state.toU8)

/-- The state code currently stored in a controller handle's shared block. -/
def SingleOutputController.stateCode : SingleOutputController → Nat
  | .blocking shared => shared.atomic_state
  | .async arc => arc.code

/-- Read-only handle to the metric registry (`MetricReader`, consumed
interface; its read views are identified by an id here). -/
structure MetricReader where
  id : Nat
deriving DecidableEq, Repr

/-- Handle of the "normal" async runtime (`runtime::Handle`). -/
structure RuntimeHandle where
  id : Nat
deriving DecidableEq, Repr

/-- A built blocking output stage object (opaque to the controller). -/
structure BlockingOutput where
  id : Nat
deriving DecidableEq, Repr

/-- A built async output stage object (opaque to the controller). -/
structure AsyncOutput where
  id : Nat
deriving DecidableEq, Repr

/-- The two kinds of measurement receiver (`channel::ReceiverEnum`). -/
inductive ReceiverEnum where
  | broadcast
  | single
deriving DecidableEq, Repr

/-- Provider of fresh measurement receivers (`channel::ReceiverProvider`);
`get` yields one receiver of the provider's kind. -/
structure ReceiverProvider where
  kind : ReceiverEnum
deriving DecidableEq, Repr

def ReceiverProvider.get (p : ReceiverProvider) : ReceiverEnum := p.kind

/-- The controlled measurement stream handed to an async builder
(`AsyncOutputStream` wrapping a `ControlledStream` over the receiver). -/
structure AsyncOutputStream where
  receiver : ReceiverEnum
deriving DecidableEq, Repr

/-- Build context exposed to output builders (`builder::OutputBuildContext`):
a point-in-time read view of the metrics, the metric reader, and the runtime
handle. -/
structure OutputBuildContext where
  metrics : Nat
  metrics_r : MetricReader
  runtime : RuntimeHandle
deriving DecidableEq, Repr

/-- An output builder supplied by a plugin (`builder::OutputBuilder`):
blocking builders map a context to a stage object or a construction error;
async builders additionally receive the wrapped measurement stream. -/
inductive OutputBuilder where
  | blocking (build : OutputBuildContext → Except String BlockingOutput)
  | async (build : OutputBuildContext → AsyncOutputStream → Except String AsyncOutput)

/-- Errors produced by the control layer: a per-stage construction failure
(the builder's error under the `output creation failed` context), or the
aggregate `failed to create K/N outputs` error of a batch call. -/
inductive ControlError where
  | creationFailed (cause : String)
  | aggregate (n_errors n : Nat)
deriving DecidableEq, Repr

/-- One spawned stage task, tracked in the `JoinSet` (identified here by the
name of the output it runs). -/
structure SpawnedTask where
  name : OutputName
deriving DecidableEq, Repr

/-- Owner of the spawned tasks and the controller registry (`TaskManager`). -/
structure TaskManager where
  spawned_tasks : List SpawnedTask
  controllers : List (OutputName × SingleOutputController)
  rx_provider : ReceiverProvider
  rt_normal : RuntimeHandle
  metrics : MetricReader
deriving DecidableEq, Repr

/-- The externally visible output controller facade (`OutputControl`). -/
structure OutputControl where
  tasks : TaskManager
  metrics : MetricReader
deriving DecidableEq, Repr

/-- Reconfiguration command (`ConfigureMessage`). -/
structure ConfigureMessage where
  matcher : OutputMatcher
  new_state : TaskState
deriving DecidableEq, Repr

/-- Batch creation command (`CreateManyMessage`). -/
structure CreateManyMessage where
  builders : List (OutputName × OutputBuilder)

/-- A control message for outputs (`ControlMessage`). -/
inductive ControlMessage where
  | configure (msg : ConfigureMessage)
  | createMany (msg : CreateManyMessage)

/-- `TaskManager::create_blocking_output`: build the output first; on
success, register a fresh blocking controller handle and spawn the task
(specialized on the receiver kind, both branches spawning). On a builder
error, return it under the creation-failed context without touching the
registry or the task set. -/
def TaskManager.create_blocking_output (tm : TaskManager) (ctx : OutputBuildContext)
    (name : OutputName) (build : OutputBuildContext → Except String BlockingOutput) :
    TaskManager × Except ControlError Unit :=
  match build ctx with
  | .error e => (tm, .error (.creationFailed e))
  | .ok _output =>
    let rx := tm.rx_provider.get
    let config := SharedOutputConfig.new
    let control := SingleOutputController.blocking config
    let tm := { tm with controllers := tm.controllers ++ [(name, control)] }
    match rx with
    | .broadcast => ({ tm with spawned_tasks := tm.spawned_tasks ++ [⟨name⟩] }, .ok ())
    | .single => ({ tm with spawned_tasks := tm.spawned_tasks ++ [⟨name⟩] }, .ok ())

/-- `TaskManager::create_async_output`: build the controlled stream from a
fresh receiver, call the builder with it; on success, register an
async-backed controller handle over the stream's shared state (a fresh
`ControlledStream` starts in the running state) and spawn the task. On a
builder error, return it without touching the registry or the task set. -/
def TaskManager.create_async_output (tm : TaskManager) (ctx : OutputBuildContext)
    (name : OutputName)
    (build : OutputBuildContext → AsyncOutputStream → Except String AsyncOutput) :
    TaskManager × Except ControlError Unit :=
  let rx := tm.rx_provider.get
  let stream : AsyncOutputStream := ⟨rx⟩
  let state : SharedStreamState := ⟨TaskState.Run.toU8⟩
  match build ctx stream with
  | .error e => (tm, .error (.creationFailed e))
  | .ok _output =>
    let control := SingleOutputController.async state
    let tm := { tm with controllers := tm.controllers ++ [(name, control)] }
    ({ tm with spawned_tasks := tm.spawned_tasks ++ [⟨name⟩] }, .ok ())

/-- `TaskManager::create_output`: dispatch on the builder kind. -/
def TaskManager.create_output (tm : TaskManager) (ctx : OutputBuildContext)
    (name : OutputName) : OutputBuilder → TaskManager × Except ControlError Unit
  | .blocking b => tm.create_blocking_output ctx name b
  | .async b => tm.create_async_output ctx name b

/-- Build context as constructed by `OutputControl` before delegating to the
task manager: a read view of the metrics, the reader itself and the runtime
handle. -/
def OutputControl.buildContext (oc : OutputControl) : OutputBuildContext :=
  { metrics := oc.metrics.id, metrics_r := oc.metrics, runtime := oc.tasks.rt_normal }

/-- Loop body of `OutputControl::blocking_create_outputs`: the `?` operator
propagates the first creation error, aborting the remaining iterations. -/
def OutputControl.blockingCreateLoop (oc : OutputControl) :
    List ((String × String) × OutputBuilder) → OutputControl × Except ControlError Unit
  | [] => (oc, .ok ())
  | ((plugin, output_name), builder) :: rest =>
    let ctx := oc.buildContext
    let full_name := OutputName.new plugin output_name
    match oc.tasks.create_output ctx full_name builder with
    | (tasks_upd, .error e) => ({ oc with tasks := tasks_upd }, .error e)
    | (tasks_upd, .ok ()) => OutputControl.blockingCreateLoop { oc with tasks := tasks_upd } rest

/-- `OutputControl::blocking_create_outputs` over a namespace iterated as
((plugin, output name), builder) triples. -/
def OutputControl.blocking_create_outputs (oc : OutputControl)
    (outputs : List ((String × String) × OutputBuilder)) :
    OutputControl × Except ControlError Unit :=
  OutputControl.blockingCreateLoop oc outputs

/-- Loop of the async `OutputControl::create_outputs`: each creation error is
counted (`inspect_err` increments `n_errors`) and otherwise discarded, so
every builder of the batch is attempted. -/
def OutputControl.createLoop (oc : OutputControl) (ctx : OutputBuildContext)
    (n_errors : Nat) :
    List (OutputName × OutputBuilder) → OutputControl × Nat
  | [] => (oc, n_errors)
  | (name, builder) :: rest =>
    match oc.tasks.create_output ctx name builder with
    | (tasks_upd, .error _e) =>
      OutputControl.createLoop { oc with tasks := tasks_upd } ctx (n_errors + 1) rest
    | (tasks_upd, .ok ()) =>
      OutputControl.createLoop { oc with tasks := tasks_upd } ctx n_errors rest

/-- Async `OutputControl::create_outputs`: builds one context, attempts every
builder, and fails with the aggregate `failed to create K/N outputs` error
iff at least one creation failed. -/
def OutputControl.create_outputs (oc : OutputControl)
    (builders : List (OutputName × OutputBuilder)) :
    OutputControl × Except ControlError Unit :=
  let ctx := oc.buildContext
  let n := builders.length
  let res := OutputControl.createLoop oc ctx 0 builders
  if res.2 = 0 then (res.1, .ok ())
  else (res.1, .error (.aggregate res.2 n))

/-- The for-loop of `TaskManager::reconfigure`: walk the registry in order
and push the new state into every handle whose name matches. -/
def setMatchingState (matcher : OutputMatcher) (new_state : TaskState) :
    List (OutputName × SingleOutputController) → List (OutputName × SingleOutputController)
  | [] => []
  | (name, output_config) :: rest =>
    if matcher.matches name then
      (name, output_config.set_state new_state) :: setMatchingState matcher new_state rest
    else
      (name, output_config) :: setMatchingState matcher new_state rest

/-- `TaskManager::reconfigure`. -/
def TaskManager.reconfigure (tm : TaskManager) (msg : ConfigureMessage) : TaskManager :=
  { tm with controllers := setMatchingState msg.matcher msg.new_state tm.controllers }

/-- `OutputControl::handle_message`: dispatch `Configure` to the synchronous
reconfigure (always `Ok`), `CreateMany` to `create_outputs`, propagating the
latter's error via `?`. -/
def OutputControl.handle_message (oc : OutputControl) (msg : ControlMessage) :
    OutputControl × Except ControlError Unit :=
  match msg with
  | .configure m => ({ oc with tasks := oc.tasks.reconfigure m }, .ok ())
  | .createMany m =>
    match oc.create_outputs m.builders with
    | (oc_upd, .error e) => (oc_upd, .error e)
    | (oc_upd, .ok ()) => (oc_upd, .ok ())

/-- `OutputControl::join_next_task`: the `None` answer of the join set (empty
set) hits the `unreachable!` panic, modelled as `none`; otherwise one task is
removed from the set and its completion handed back. -/
def OutputControl.join_next_task (oc : OutputControl) :
    Option (SpawnedTask × OutputControl) :=
  match oc.tasks.spawned_tasks with
  | [] => none
  | t :: rest => some (t, { oc with tasks := { oc.tasks with spawned_tasks := rest } })

/-- `OutputControl::has_task`: true iff the spawned-task set is non-empty. -/
def OutputControl.has_task (oc : OutputControl) : Bool :=
  !oc.tasks.spawned_tasks.isEmpty

/-- Externally visible steps of the shutdown sequence, in order: posting a
state to a controller handle, dropping the receiver provider (which closes
the upstream channel), and handing one joined task's completion to the
caller-supplied callback. -/
inductive ControlEvent where
  | postState (name : OutputName) (state : TaskState)
  | dropRxProvider
  | taskResult (t : SpawnedTask)
deriving DecidableEq, Repr

/-- The join loop of `TaskManager::shutdown`: invoke the callback on each
joined task until the set is empty. -/
def joinAll : List SpawnedTask → List ControlEvent
  | [] => []
  | t :: rest => .taskResult t :: joinAll rest

/-- `TaskManager::shutdown`: drop the receiver provider first (closing the
channel), then join every outstanding task. -/
def TaskManager.shutdown (tm : TaskManager) : List ControlEvent :=
  ControlEvent.dropRxProvider :: joinAll tm.spawned_tasks

/-- The `set_state` posts performed by a reconfigure pass, in registry
order. -/
def postEvents (matcher : OutputMatcher) (new_state : TaskState) :
    List (OutputName × SingleOutputController) → List ControlEvent
  | [] => []
  | (name, _) :: rest =>
    if matcher.matches name then
      .postState name new_state :: postEvents matcher new_state rest
    else
      postEvents matcher new_state rest

/-- `OutputControl::shutdown`: broadcast `StopFinish` with a wildcard matcher
through `handle_message`, then delegate to `TaskManager::shutdown`. The
returned trace records the posts of the configure phase followed by the
channel closure and the joins. -/
def OutputControl.shutdown (oc : OutputControl) : List ControlEvent :=
  let stop_msg : ConfigureMessage :=
    ⟨.name OutputNamePattern.wildcard, .StopFinish⟩
  let oc_stopped := (oc.handle_message (.configure stop_msg)).1
  postEvents stop_msg.matcher stop_msg.new_state oc.tasks.controllers
    ++ oc_stopped.tasks.shutdown

/-- `OutputControl::list_elements`: when the pattern's kind filter is absent
or `Output`, append every registered name matching the pattern to `buf`, in
registration order; otherwise append nothing. -/
def OutputControl.list_elements (oc : OutputControl) (buf : List ElementName)
    (pat : ElementNamePattern) : List ElementName :=
  if pat.kind = none ∨ pat.kind = some .output then
    buf ++ oc.tasks.controllers.filterMap (fun p =>
      if pat.matches p.1 then some p.1.toElementName else none)
  else
    buf

/-- The construction error reported by one builder against a given context
and receiver kind, if any: `some e` iff the builder fails with `e`. -/
def buildFailure (ctx : OutputBuildContext) (rx : ReceiverEnum) :
    OutputBuilder → Option String
  | .blocking b =>
    match b ctx with
    | .error e => some e
    | .ok _ => none
  | .async b =>
    match b ctx ⟨rx⟩ with
    | .error e => some e
    | .ok _ => none

/-- Whether one builder fails against a given context and receiver kind. -/
def buildFails (ctx : OutputBuildContext) (rx : ReceiverEnum) (b : OutputBuilder) : Bool :=
  (buildFailure ctx rx b).isSome

/-- The controller handle registered for a freshly created stage: a blocking
handle over a fresh shared config, or an async handle over the fresh stream
state; both start in the running state. -/
def newController : OutputBuilder → SingleOutputController
  | .blocking _ => .blocking SharedOutputConfig.new
  | .async _ => .async ⟨TaskState.Run.toU8⟩

/-- Sample metric reader used by concrete instantiations. -/
def sampleMetrics : MetricReader := ⟨0⟩

/-- Sample runtime handle used by concrete instantiations. -/
def sampleRt : RuntimeHandle := ⟨0⟩

/-- Sample build context used by concrete instantiations. -/
def sampleCtx : OutputBuildContext :=
  { metrics := 0, metrics_r := sampleMetrics, runtime := sampleRt }

/-- Sample task manager with no tasks and no controllers. -/
def sampleTM : TaskManager :=
  { spawned_tasks := []
    controllers := []
    rx_provider := ⟨.single⟩
    rt_normal := sampleRt
    metrics := sampleMetrics }

/-- Sample controller facade over the empty task manager. -/
def sampleOC : OutputControl := { tasks := sampleTM, metrics := sampleMetrics }

/-- Sample spawned task. -/
def sampleTaskA : SpawnedTask := ⟨OutputName.new "p" "a"⟩

/-- Sample controller facade with one spawned task. -/
def sampleOC1 : OutputControl :=
  { tasks := { sampleTM with spawned_tasks := [sampleTaskA] }, metrics := sampleMetrics }

/-- Sample controller facade with two registered stages "a" and "b". -/
def sampleOC2 : OutputControl :=
  { tasks := { sampleTM with
      controllers :=
        [(OutputName.new "p" "a", .blocking SharedOutputConfig.new),
         (OutputName.new "p" "b", .blocking SharedOutputConfig.new)] }
    metrics := sampleMetrics }

/-- Sample pattern matching only the output named "a", with kind filter
`Output`. -/
def samplePat : ElementNamePattern :=
  { kind := some .output, plugin := .any, element := .exact "a" }

/-- A blocking builder that always fails with "boom". -/
def failingBuilder : OutputBuilder := .blocking (fun _ => .error "boom")

/-- A blocking builder that always succeeds. -/
def okBuilder : OutputBuilder := .blocking (fun _ => .ok ⟨1⟩)

/-- Sample batch for the async creation path: one failing and one succeeding
builder. -/
def sampleBuilders : List (OutputName × OutputBuilder) :=
  [(OutputName.new "p" "a", failingBuilder), (OutputName.new "p" "b", okBuilder)]

/-- Sample batch for the blocking creation path: a failing builder followed
by a succeeding one. -/
def sampleOutputs : List ((String × String) × OutputBuilder) :=
  [(("p", "a"), failingBuilder), (("p", "b"), okBuilder)]

/-! ## Helper lemmas -/

/-- The wildcard matcher matches every output name. -/
theorem wildcard_matches (n : OutputName) :
    (OutputMatcher.name OutputNamePattern.wildcard).matches n = true := rfl

/-- `setMatchingState` is the pointwise conditional update of the registry. -/
theorem setMatchingState_eq_map (matcher : OutputMatcher) (st : TaskState)
    (l : List (OutputName × SingleOutputController)) :
    setMatchingState matcher st l =
      l.map (fun p => if matcher.matches p.1 then (p.1, p.2.set_state st) else p) := by
  induction l with
  | nil => rfl
  | cons p rest ih =>
    obtain ⟨name, c⟩ := p
    by_cases h : matcher.matches name = true <;>
      simp [setMatchingState, h, ih]

/-- `joinAll` emits one `taskResult` event per task, in order. -/
theorem joinAll_eq_map (l : List SpawnedTask) :
    joinAll l = l.map ControlEvent.taskResult := by
  induction l with
  | nil => rfl
  | cons t rest ih => simp [joinAll, ih]

/-- `postEvents` with the wildcard matcher posts to every registered name. -/
theorem postEvents_wildcard (st : TaskState)
    (l : List (OutputName × SingleOutputController)) :
    postEvents (.name OutputNamePattern.wildcard) st l =
      l.map (fun p => .postState p.1 st) := by
  induction l with
  | nil => rfl
  | cons p rest ih =>
    obtain ⟨name, c⟩ := p
    simp [postEvents, wildcard_matches, ih]

/-- Filtering with a guard inside `filterMap` is a filter followed by a map. -/
theorem filterMap_guard {α β : Type} (p : α → Bool) (f : α → β) (l : List α) :
    l.filterMap (fun x => if p x then some (f x) else none) =
      (l.filter p).map f := by
  induction l with
  | nil => rfl
  | cons a rest ih =>
    by_cases h : p a = true <;> simp [List.filterMap_cons, List.filter_cons, h, ih]

/-- A successful builder registers exactly one fresh controller handle and
spawns exactly one task, leaving everything else in the manager unchanged. -/
theorem create_output_ok (tm : TaskManager) (ctx : OutputBuildContext)
    (name : OutputName) (b : OutputBuilder)
    (h : buildFailure ctx tm.rx_provider.get b = none) :
    tm.create_output ctx name b =
      ({ tm with
          controllers := tm.controllers ++ [(name, newController b)],
          spawned_tasks := tm.spawned_tasks ++ [⟨name⟩] }, .ok ()) := by
  cases b with
  | blocking bf =>
    cases hb : bf ctx with
    | error e => simp [buildFailure, hb] at h
    | ok out =>
      cases hrx : tm.rx_provider.get <;>
        simp [TaskManager.create_output, TaskManager.create_blocking_output, hb, hrx,
          newController]
  | async bf =>
    cases hb : bf ctx ⟨tm.rx_provider.get⟩ with
    | error e => simp [buildFailure, hb] at h
    | ok out =>
      simp [TaskManager.create_output, TaskManager.create_async_output, hb, newController]

/-- A failing builder leaves the manager unchanged and propagates its error
under the creation-failed context. -/
theorem create_output_err (tm : TaskManager) (ctx : OutputBuildContext)
    (name : OutputName) (b : OutputBuilder) (e : String)
    (h : buildFailure ctx tm.rx_provider.get b = some e) :
    tm.create_output ctx name b = (tm, .error (.creationFailed e)) := by
  cases b with
  | blocking bf =>
    cases hb : bf ctx with
    | error e₂ =>
      simp [buildFailure, hb] at h
      simp [TaskManager.create_output, TaskManager.create_blocking_output, hb, h]
    | ok out => simp [buildFailure, hb] at h
  | async bf =>
    cases hb : bf ctx ⟨tm.rx_provider.get⟩ with
    | error e₂ =>
      simp [buildFailure, hb] at h
      simp [TaskManager.create_output, TaskManager.create_async_output, hb, h]
    | ok out => simp [buildFailure, hb] at h

/-! ## Claim theorems -/

/-- C9: encoding any of the five task states to its numeric code and decoding
it back yields the same state (the conversion round-trips on all valid
states). -/
theorem taskState_code_roundtrip (s : TaskState) : TaskState.fromU8 s.toU8 = s := by
  cases s <;> rfl

/-- C4: converting any 8-bit code outside {0,1,2,3,4} to a `TaskState` never
fails and yields `StopNow`, the fail-safe default. -/
theorem taskState_fromU8_out_of_range (c : Nat) (h8 : c < 256) (hout : 4 < c) :
    TaskState.fromU8 c = .StopNow := by
  obtain ⟨n, rfl⟩ : ∃ n, c = n + 5 := ⟨c - 5, by omega⟩
  rfl

/-- Witness for C4 at the concrete code 200. -/
theorem taskState_fromU8_out_of_range_witness :
    (200 : Nat) < 256 ∧ 4 < 200 ∧ TaskState.fromU8 200 = .StopNow :=
  ⟨by decide, by decide, taskState_fromU8_out_of_range 200 (by decide) (by decide)⟩

/-- C5: when `has_task` holds, `join_next_task` never reaches its panic
branch: it returns the completion of some task of the spawned-task set;
when the set is empty it hits the panic branch (modelled as `none`), a
precondition violation rather than a recoverable result. -/
theorem join_next_task_spec (oc : OutputControl) :
    (oc.has_task = true →
      ∃ t oc', oc.join_next_task = some (t, oc') ∧ t ∈ oc.tasks.spawned_tasks)
    ∧ (oc.has_task = false → oc.join_next_task = none) := by
  constructor
  · intro h
    match hl : oc.tasks.spawned_tasks with
    | [] => simp [OutputControl.has_task, hl] at h
    | t :: rest =>
      exact ⟨t, { oc with tasks := { oc.tasks with spawned_tasks := rest } },
        by simp [OutputControl.join_next_task, hl], by simp [hl]⟩
  · intro h
    match hl : oc.tasks.spawned_tasks with
    | [] => simp [OutputControl.join_next_task, hl]
    | t :: rest => simp [OutputControl.has_task, hl] at h

/-- Witness for C5 on a controller with one spawned task. -/
theorem join_next_task_spec_witness :
    ∃ t oc', sampleOC1.join_next_task = some (t, oc')
      ∧ t ∈ sampleOC1.tasks.spawned_tasks :=
  (join_next_task_spec sampleOC1).1 rfl

/-- C6: `reconfigure` maps the registry pointwise in registration order:
every handle whose name matches the matcher (duplicates included) gets
`set_state new_state`, every other handle is unchanged, and the registry's
names, order and length, the task set and the rest of the manager are left
unchanged. -/
theorem reconfigure_spec (tm : TaskManager) (msg : ConfigureMessage) :
    (tm.reconfigure msg).controllers =
        tm.controllers.map
          (fun p => if msg.matcher.matches p.1 then (p.1, p.2.set_state msg.new_state) else p)
    ∧ (tm.reconfigure msg).controllers.map Prod.fst = tm.controllers.map Prod.fst
    ∧ (tm.reconfigure msg).controllers.length = tm.controllers.length
    ∧ (tm.reconfigure msg).spawned_tasks = tm.spawned_tasks
    ∧ (tm.reconfigure msg).rx_provider = tm.rx_provider
    ∧ (tm.reconfigure msg).rt_normal = tm.rt_normal
    ∧ (tm.reconfigure msg).metrics = tm.metrics := by
  have hctrl : (tm.reconfigure msg).controllers =
      setMatchingState msg.matcher msg.new_state tm.controllers := rfl
  have hmap := setMatchingState_eq_map msg.matcher msg.new_state tm.controllers
  refine ⟨hctrl.trans hmap, ?_, ?_, rfl, rfl, rfl, rfl⟩
  · rw [hctrl, hmap, List.map_map]
    refine List.map_congr_left (fun p _ => ?_)
    by_cases h : msg.matcher.matches p.1 = true <;> simp [h]
  · rw [hctrl, hmap, List.length_map]

/-- C7: a `Configure` message always succeeds through `handle_message`, for
every matcher and target state; a `CreateMany` message yields exactly the
result of `create_outputs` on its builders (the error, when any, is
propagated unchanged). -/
theorem handle_message_spec (oc : OutputControl) :
    (∀ (matcher : OutputMatcher) (new_state : TaskState),
        (oc.handle_message (.configure ⟨matcher, new_state⟩)).2 = .ok ())
    ∧ (∀ builders : List (OutputName × OutputBuilder),
        (oc.handle_message (.createMany ⟨builders⟩)).2 = (oc.create_outputs builders).2) := by
  constructor
  · intro matcher new_state
    rfl
  · intro builders
    rcases h : oc.create_outputs builders with ⟨oc', res⟩
    cases res with
    | error e => simp [OutputControl.handle_message, h]
    | ok u => cases u; simp [OutputControl.handle_message, h]

/-- C8: `list_elements` appends nothing when the pattern's kind filter is an
element kind other than `Output`; when the filter is absent or `Output`, it
appends exactly the registered names matching the pattern, in registration
order, after the untouched original contents of the buffer. -/
theorem list_elements_spec (oc : OutputControl) (buf : List ElementName)
    (pat : ElementNamePattern) :
    (∀ k : ElementKind, pat.kind = some k → k ≠ .output →
        oc.list_elements buf pat = buf)
    ∧ ((pat.kind = none ∨ pat.kind = some .output) →
        oc.list_elements buf pat =
          buf ++ (oc.tasks.controllers.filter (fun p => pat.matches p.1)).map
              (fun p => p.1.toElementName)) := by
  constructor
  · intro k hk hne
    have hcond : ¬(pat.kind = none ∨ pat.kind = some .output) := by
      rintro (h | h)
      · rw [hk] at h; exact Option.noConfusion h
      · rw [hk] at h
        exact hne (Option.some.injEq _ _ ▸ h)
    simp [OutputControl.list_elements, hcond]
  · intro hcond
    simp [OutputControl.list_elements, hcond, filterMap_guard]

/-- Witness for C8: on a registry holding "a" then "b", a pattern matching
only "a" (kind filter `Output`) appends exactly the element name of "a". -/
theorem list_elements_spec_witness :
    sampleOC2.list_elements [] samplePat =
      [OutputName.toElementName (OutputName.new "p" "a")] := by
  have h := (list_elements_spec sampleOC2 [] samplePat).2 (Or.inr rfl)
  rw [h]
  rfl

/-- C10: in both creation variants, a builder error is returned to the caller
(under the creation-failed context) and the task manager is left exactly as
it was: no controller handle registered, no task spawned, since the builder
runs before any registration. -/
theorem create_output_builder_error_frame :
    (∀ (tm : TaskManager) (ctx : OutputBuildContext) (name : OutputName)
        (build : OutputBuildContext → Except String BlockingOutput) (e : String),
        build ctx = .error e →
        tm.create_blocking_output ctx name build = (tm, .error (.creationFailed e)))
    ∧ (∀ (tm : TaskManager) (ctx : OutputBuildContext) (name : OutputName)
        (build : OutputBuildContext → AsyncOutputStream → Except String AsyncOutput)
        (e : String),
        build ctx ⟨tm.rx_provider.get⟩ = .error e →
        tm.create_async_output ctx name build = (tm, .error (.creationFailed e))) := by
  constructor
  · intro tm ctx name build e h
    simp [TaskManager.create_blocking_output, h]
  · intro tm ctx name build e h
    simp [TaskManager.create_async_output, h]

/-- Witness for C10 on concrete always-failing builders. -/
theorem create_output_builder_error_frame_witness :
    sampleTM.create_blocking_output sampleCtx (OutputName.new "p" "x")
        (fun _ => .error "boom")
      = (sampleTM, .error (.creationFailed "boom"))
    ∧ sampleTM.create_async_output sampleCtx (OutputName.new "p" "x")
        (fun _ _ => .error "boom")
      = (sampleTM, .error (.creationFailed "boom")) :=
  ⟨create_output_builder_error_frame.1 sampleTM sampleCtx (OutputName.new "p" "x")
      (fun _ => .error "boom") "boom" rfl,
   create_output_builder_error_frame.2 sampleTM sampleCtx (OutputName.new "p" "x")
      (fun _ _ => .error "boom") "boom" rfl⟩

/-- Characterization of the async creation loop: the error counter grows by
one per failing builder, every successful builder appends exactly one
controller handle and one spawned task (in batch order), and the receiver
provider, runtime handle and metric readers are untouched. -/
theorem createLoop_spec (builders : List (OutputName × OutputBuilder)) :
    ∀ (oc : OutputControl) (ctx : OutputBuildContext) (k : Nat),
    (OutputControl.createLoop oc ctx k builders).2 =
        k + (builders.filter (fun p => buildFails ctx oc.tasks.rx_provider.get p.2)).length
    ∧ (OutputControl.createLoop oc ctx k builders).1.tasks.controllers =
        oc.tasks.controllers ++
          (builders.filter (fun p => !buildFails ctx oc.tasks.rx_provider.get p.2)).map
            (fun p => (p.1, newController p.2))
    ∧ (OutputControl.createLoop oc ctx k builders).1.tasks.spawned_tasks =
        oc.tasks.spawned_tasks ++
          (builders.filter (fun p => !buildFails ctx oc.tasks.rx_provider.get p.2)).map
            (fun p => (⟨p.1⟩ : SpawnedTask))
    ∧ (OutputControl.createLoop oc ctx k builders).1.tasks.rx_provider = oc.tasks.rx_provider
    ∧ (OutputControl.createLoop oc ctx k builders).1.tasks.rt_normal = oc.tasks.rt_normal
    ∧ (OutputControl.createLoop oc ctx k builders).1.tasks.metrics = oc.tasks.metrics
    ∧ (OutputControl.createLoop oc ctx k builders).1.metrics = oc.metrics := by
  induction builders with
  | nil =>
    intro oc ctx k
    simp [OutputControl.createLoop]
  | cons hd rest ih =>
    intro oc ctx k
    obtain ⟨name, b⟩ := hd
    cases hf : buildFailure ctx oc.tasks.rx_provider.get b with
    | some e =>
      have hstep := create_output_err oc.tasks ctx name b e hf
      have hfails : buildFails ctx oc.tasks.rx_provider.get b = true := by
        simp [buildFails, hf]
      have hloop : OutputControl.createLoop oc ctx k ((name, b) :: rest) =
          OutputControl.createLoop oc ctx (k + 1) rest := by
        simp [OutputControl.createLoop, hstep]
      obtain ⟨ih1, ih2, ih3, ih4, ih5, ih6, ih7⟩ := ih oc ctx (k + 1)
      rw [hloop]
      refine ⟨?_, ?_, ?_, ih4, ih5, ih6, ih7⟩
      · rw [ih1, List.filter_cons]
        simp only [hfails, if_pos]
        simp
        omega
      · rw [ih2, List.filter_cons]
        simp [hfails]
      · rw [ih3, List.filter_cons]
        simp [hfails]
    | none =>
      have hstep := create_output_ok oc.tasks ctx name b hf
      have hfails : buildFails ctx oc.tasks.rx_provider.get b = false := by
        simp [buildFails, hf]
      have hloop : OutputControl.createLoop oc ctx k ((name, b) :: rest) =
          OutputControl.createLoop
            { oc with tasks :=
                { oc.tasks with
                    controllers := oc.tasks.controllers ++ [(name, newController b)],
                    spawned_tasks := oc.tasks.spawned_tasks ++ [⟨name⟩] } } ctx k rest := by
        simp [OutputControl.createLoop, hstep]
      obtain ⟨ih1, ih2, ih3, ih4, ih5, ih6, ih7⟩ :=
        ih { oc with tasks :=
              { oc.tasks with
                  controllers := oc.tasks.controllers ++ [(name, newController b)],
                  spawned_tasks := oc.tasks.spawned_tasks ++ [⟨name⟩] } } ctx k
      rw [hloop]
      refine ⟨?_, ?_, ?_, ih4, ih5, ih6, ih7⟩
      · rw [ih1, List.filter_cons]
        simp [hfails]
      · rw [ih2, List.filter_cons]
        simp [hfails]
      · rw [ih3, List.filter_cons]
        simp [hfails]

/-- C2: the async `create_outputs` attempts every builder of the batch; with
K the number of failing builders out of N, it returns `Ok` iff K = 0 and
otherwise the aggregate error reporting K failures out of N, and each of the
N - K successful stages is registered with a fresh controller handle and
spawned as a task, in batch order. -/
theorem create_outputs_spec (oc : OutputControl)
    (builders : List (OutputName × OutputBuilder)) :
    ((oc.create_outputs builders).2 = .ok () ↔
        (builders.filter (fun p =>
          buildFails oc.buildContext oc.tasks.rx_provider.get p.2)).length = 0)
    ∧ ((builders.filter (fun p =>
          buildFails oc.buildContext oc.tasks.rx_provider.get p.2)).length ≠ 0 →
        (oc.create_outputs builders).2 =
          .error (.aggregate
            (builders.filter (fun p =>
              buildFails oc.buildContext oc.tasks.rx_provider.get p.2)).length
            builders.length))
    ∧ (oc.create_outputs builders).1.tasks.controllers =
        oc.tasks.controllers ++
          (builders.filter (fun p =>
            !buildFails oc.buildContext oc.tasks.rx_provider.get p.2)).map
            (fun p => (p.1, newController p.2))
    ∧ (oc.create_outputs builders).1.tasks.spawned_tasks =
        oc.tasks.spawned_tasks ++
          (builders.filter (fun p =>
            !buildFails oc.buildContext oc.tasks.rx_provider.get p.2)).map
            (fun p => (⟨p.1⟩ : SpawnedTask)) := by
  obtain ⟨h1, h2, h3, -, -, -, -⟩ := createLoop_spec builders oc oc.buildContext 0
  rw [Nat.zero_add] at h1
  by_cases hk : (builders.filter (fun p =>
      buildFails oc.buildContext oc.tasks.rx_provider.get p.2)).length = 0
  · have hres : oc.create_outputs builders =
        ((OutputControl.createLoop oc oc.buildContext 0 builders).1, .ok ()) := by
      simp [OutputControl.create_outputs, h1, hk]
    refine ⟨?_, fun h => absurd hk h, ?_, ?_⟩
    · rw [hres]; simp [hk]
    · rw [hres]; exact h2
    · rw [hres]; exact h3
  · have hres : oc.create_outputs builders =
        ((OutputControl.createLoop oc oc.buildContext 0 builders).1,
          .error (.aggregate
            (builders.filter (fun p =>
              buildFails oc.buildContext oc.tasks.rx_provider.get p.2)).length
            builders.length)) := by
      simp [OutputControl.create_outputs, h1, hk]
    refine ⟨?_, fun _ => by rw [hres], ?_, ?_⟩
    · rw [hres]; simp [hk]
    · rw [hres]; exact h2
    · rw [hres]; exact h3

/-- Witness for C2 on a two-builder batch whose first builder fails: the
aggregate error reports 1 failure out of 2 and the surviving stage "b" is
registered and spawned. -/
theorem create_outputs_spec_witness :
    (sampleOC.create_outputs sampleBuilders).2 = .error (.aggregate 1 2)
    ∧ (sampleOC.create_outputs sampleBuilders).1.tasks.controllers =
        [(OutputName.new "p" "b", newController okBuilder)]
    ∧ (sampleOC.create_outputs sampleBuilders).1.tasks.spawned_tasks =
        [(⟨OutputName.new "p" "b"⟩ : SpawnedTask)] := by
  refine ⟨?_, ?_, ?_⟩
  · exact (create_outputs_spec sampleOC sampleBuilders).2.1 (by decide)
  · exact (create_outputs_spec sampleOC sampleBuilders).2.2.1
  · exact (create_outputs_spec sampleOC sampleBuilders).2.2.2

/-- C3 counterexample: on the empty controller, the batch [failing "a",
succeeding "b"] through the synchronous `blocking_create_outputs` returns the
first builder's error and registers and spawns nothing at all, although the
builder of "b" succeeds whenever it is attempted (last conjunct): the builder
after the failing one was not attempted, so a failure does abort the batch. -/
theorem blocking_create_outputs_counterexample :
    (sampleOC.blocking_create_outputs sampleOutputs).2 = .error (.creationFailed "boom")
    ∧ (sampleOC.blocking_create_outputs sampleOutputs).1.tasks.controllers = []
    ∧ (sampleOC.blocking_create_outputs sampleOutputs).1.tasks.spawned_tasks = []
    ∧ (sampleOC.blocking_create_outputs [(("p", "b"), okBuilder)]).1.tasks.controllers.length = 1 :=
  ⟨rfl, rfl, rfl, rfl⟩

/-- C3 amended: in `blocking_create_outputs`, the first construction failure
aborts the batch: when every builder before the failing one succeeds, the
call returns the failing builder's error, the stages before it are all
registered and spawned, and the builders after it are not attempted (the
result does not depend on them). -/
theorem blocking_create_outputs_first_failure (oc : OutputControl)
    (pre : List ((String × String) × OutputBuilder)) (pl out : String)
    (b : OutputBuilder) (rest : List ((String × String) × OutputBuilder)) (e : String)
    (hpre : ∀ x ∈ pre, buildFailure oc.buildContext oc.tasks.rx_provider.get x.2 = none)
    (hfail : buildFailure oc.buildContext oc.tasks.rx_provider.get b = some e) :
    (oc.blocking_create_outputs (pre ++ ((pl, out), b) :: rest)).2 =
        .error (.creationFailed e)
    ∧ (oc.blocking_create_outputs (pre ++ ((pl, out), b) :: rest)).1.tasks.controllers =
        oc.tasks.controllers ++
          pre.map (fun x => (OutputName.new x.1.1 x.1.2, newController x.2))
    ∧ (oc.blocking_create_outputs (pre ++ ((pl, out), b) :: rest)).1.tasks.spawned_tasks =
        oc.tasks.spawned_tasks ++
          pre.map (fun x => (⟨OutputName.new x.1.1 x.1.2⟩ : SpawnedTask)) := by
  induction pre generalizing oc with
  | nil =>
    have hstep := create_output_err oc.tasks oc.buildContext (OutputName.new pl out) b e hfail
    refine ⟨?_, ?_, ?_⟩ <;>
      simp [OutputControl.blocking_create_outputs, OutputControl.blockingCreateLoop, hstep]
  | cons x pre' ih =>
    obtain ⟨⟨xp, xo⟩, xb⟩ := x
    have hx := hpre _ (List.mem_cons_self _ _)
    have hstep := create_output_ok oc.tasks oc.buildContext (OutputName.new xp xo) xb hx
    have hloop :
        oc.blocking_create_outputs ((((xp, xo), xb) :: pre') ++ ((pl, out), b) :: rest) =
          OutputControl.blocking_create_outputs
            { oc with tasks :=
                { oc.tasks with
                    controllers :=
                      oc.tasks.controllers ++ [(OutputName.new xp xo, newController xb)],
                    spawned_tasks := oc.tasks.spawned_tasks ++ [⟨OutputName.new xp xo⟩] } }
            (pre' ++ ((pl, out), b) :: rest) := by
      simp [OutputControl.blocking_create_outputs, OutputControl.blockingCreateLoop, hstep]
    obtain ⟨ih1, ih2, ih3⟩ :=
      ih { oc with tasks :=
              { oc.tasks with
                  controllers :=
                    oc.tasks.controllers ++ [(OutputName.new xp xo, newController xb)],
                  spawned_tasks := oc.tasks.spawned_tasks ++ [⟨OutputName.new xp xo⟩] } }
        (fun y hy => hpre y (List.mem_cons_of_mem _ hy)) hfail
    rw [hloop]
    refine ⟨ih1, ?_, ?_⟩
    · rw [ih2]; simp
    · rw [ih3]; simp

/-- Witness for C3's amended theorem: a succeeding "a" followed by a failing
"c" followed by a never-attempted "b" registers exactly "a" and returns the
error of "c". -/
theorem blocking_create_outputs_first_failure_witness :
    (sampleOC.blocking_create_outputs
        ([(("p", "a"), okBuilder)] ++ (("p", "c"), failingBuilder) :: [(("p", "b"), okBuilder)])).2 =
      .error (.creationFailed "boom")
    ∧ (sampleOC.blocking_create_outputs
        ([(("p", "a"), okBuilder)] ++ (("p", "c"), failingBuilder) :: [(("p", "b"), okBuilder)])).1.tasks.controllers =
        sampleOC.tasks.controllers ++
          [(("p", "a"), okBuilder)].map (fun x => (OutputName.new x.1.1 x.1.2, newController x.2)) := by
  have h := blocking_create_outputs_first_failure sampleOC [(("p", "a"), okBuilder)]
    "p" "c" failingBuilder [(("p", "b"), okBuilder)] "boom"
    (by intro x hx; simp at hx; subst hx; rfl) rfl
  exact ⟨h.1, h.2.1⟩

/-- C1: `shutdown` first posts `StopFinish` to every registered controller
handle, in registration order, via a wildcard `Configure` that cannot fail;
only then is the receiver provider dropped (closing the upstream channel),
after which the caller-supplied callback is invoked exactly once per
previously-spawned task, the call ending with the task set drained. -/
theorem shutdown_spec (oc : OutputControl) :
    oc.shutdown =
        oc.tasks.controllers.map (fun p => ControlEvent.postState p.1 .StopFinish)
          ++ ControlEvent.dropRxProvider
            :: oc.tasks.spawned_tasks.map ControlEvent.taskResult
    ∧ (oc.handle_message
          (.configure ⟨.name OutputNamePattern.wildcard, .StopFinish⟩)).1.tasks.controllers =
        oc.tasks.controllers.map (fun p => (p.1, p.2.set_state .StopFinish))
    ∧ (oc.handle_message
          (.configure ⟨.name OutputNamePattern.wildcard, .StopFinish⟩)).2 = .ok () := by
  refine ⟨?_, ?_, rfl⟩
  · have hpost := postEvents_wildcard TaskState.StopFinish oc.tasks.controllers
    have hjoin := joinAll_eq_map oc.tasks.spawned_tasks
    simp [OutputControl.shutdown, OutputControl.handle_message, TaskManager.shutdown,
      TaskManager.reconfigure, hpost, hjoin]
  · have hctrl : (oc.handle_message
        (.configure ⟨.name OutputNamePattern.wildcard, .StopFinish⟩)).1.tasks.controllers =
          setMatchingState (.name OutputNamePattern.wildcard) .StopFinish
            oc.tasks.controllers := rfl
    rw [hctrl, setMatchingState_eq_map]
    refine List.map_congr_left (fun p _ => ?_)
    simp [wildcard_matches]
